import Mathlib

/-!
Verification of the simple-operator repository: a minimal Kubernetes
operator whose controller reconciles a `Simple` resource, together with
the observability subsystem its specification describes (metric registry,
exporter, certificate watcher).

The data model (`SimpleSpec`, `SimpleStatus`, `Simple`) and the
`Reconcile` function are embedded from `src/api/v1/simple_types.go` and
the controller code in `src/README.md` (section 3, "Controller Logic").
The metrics library, exporter and certificate watcher are developed in a
separate repository and are not present under `src/`; their definitions
below are modelled from the specification and marked as such.
-/

namespace SimpleOperator

/-- Object identity, the part of `metav1.ObjectMeta` the controller uses
(namespace and name). -/
structure ObjectMeta where
  nspace : String
  name : String
  deriving DecidableEq, Repr

/-- SimpleSpec defines the desired state.  `message` carries the marker
`+kubebuilder:validation:MinLength=1` in `src/api/v1/simple_types.go`. -/
structure SimpleSpec where
  message : String
  deriving DecidableEq, Repr

/-- SimpleStatus defines the observed state.  `replied` is `+optional`
with `omitempty`, so an absent field decodes to the Go zero value
`false`. -/
structure SimpleStatus where
  replied : Bool
  deriving DecidableEq, Repr

/-- Simple is the schema for the simples API: metadata, spec, status
(the status is a subresource, per `+kubebuilder:subresource:status`). -/
structure Simple where
  metadata : ObjectMeta
  spec : SimpleSpec
  status : SimpleStatus
  deriving DecidableEq, Repr

/-- Errors returned by the external resource store (the Kubernetes API
server): not-found, optimistic-concurrency conflict, or any other error
code. -/
inductive ApiError where
  | notFound
  | conflict
  | other (code : Nat)
  deriving DecidableEq, Repr

/-- Embedding of `client.IgnoreNotFound`: returns success for a
not-found error and passes every other error through. -/
def IgnoreNotFound : Option ApiError → Option ApiError
  | some ApiError.notFound => none
  | e => e

/-- The record with `status.replied` set to `true`, as the controller
mutates the fetched object before calling `r.Status().Update`. -/
def withReplied (s : Simple) : Simple :=
  { s with status := { s.status with replied := true } }

/-- Observable effects of one `Reconcile` invocation: how many fetches
were issued, the exact arguments of each `Status().Update` call in
order, and the error value returned to the caller (`none` = success). -/
structure ReconcileTrace where
  getCalls : Nat
  statusUpdateCalls : List Simple
  err : Option ApiError
  deriving DecidableEq, Repr

/-- Embedding of `SimpleReconciler.Reconcile` from the controller code in
`src/README.md`: fetch the `Simple` instance (absorbing not-found via
`client.IgnoreNotFound`), log the message, and if `status.replied` is
not yet set, set it and issue one status update, returning that update's
error.  The environment is passed in as the fetch outcome `get` and the
store's response `statusUpdate` to an update call. -/
def Reconcile (get : Except ApiError Simple)
    (statusUpdate : Simple → Option ApiError) : ReconcileTrace :=
  match get with
  | Except.error e =>
      { getCalls := 1, statusUpdateCalls := [], err := IgnoreNotFound (some e) }
  | Except.ok simple =>
      if !simple.status.replied then
        let simple' := withReplied simple
        { getCalls := 1, statusUpdateCalls := [simple'], err := statusUpdate simple' }
      else
        { getCalls := 1, statusUpdateCalls := [], err := none }

/-- Kinds of metric samples the reconciler emits. -/
inductive MetricKind where
  | counter
  | histogram
  deriving DecidableEq, Repr

/-- An instantaneous metric observation: kind, series name, labels, and
the value folded into the series (counters are incremented by `value`,
histograms observe `value`). -/
structure MetricSample where
  kind : MetricKind
  name : String
  labels : List (String × String)
  value : Nat
  deriving DecidableEq, Repr

/-- A single increment of the `reconcile_total` counter with the given
`result` label. -/
def reconcileTotal (result : String) : MetricSample :=
  { kind := MetricKind.counter, name := "reconcile_total",
    labels := [("result", result)], value := 1 }

/-- One observation of the `reconcile_duration` histogram. -/
def reconcileDuration (d : Nat) : MetricSample :=
  { kind := MetricKind.histogram, name := "reconcile_duration",
    labels := [], value := d }

/-- Modelled from the spec: the metric recording around `Reconcile`.  The
metrics library lives in a separate repository and is absent from `src/`;
the spec states that a not-found fetch increments
`reconcile_total{result="not_found"}`, an already-replied record
increments `reconcile_total{result="skipped"}` with no write, and a
successful update increments `reconcile_total{result="updated"}` and
records one `reconcile_duration` histogram observation.  The underlying
state transition is the embedded `Reconcile` from the controller code. -/
def ReconcileInstrumented (get : Except ApiError Simple)
    (statusUpdate : Simple → Option ApiError) (duration : Nat) :
    ReconcileTrace × List MetricSample :=
  let t := Reconcile get statusUpdate
  let samples : List MetricSample :=
    match get with
    | Except.error ApiError.notFound => [reconcileTotal "not_found"]
    | Except.error _ => []
    | Except.ok simple =>
        if simple.status.replied then
          [reconcileTotal "skipped"]
        else if t.err = none then
          [reconcileTotal "updated", reconcileDuration duration]
        else
          []
  (t, samples)

/-- One step of a reconcile sequence: an optional external edit of the
spec (a new spec generation written by a client before the reconcile
fires) together with the store's response to a status update call. -/
structure ReconcileStep where
  specEdit : Option SimpleSpec
  statusUpdate : Simple → Option ApiError

/-- Apply an external spec edit to the stored record (status untouched:
clients edit the spec, the status is a subresource). -/
def applyEdit (s : Simple) : Option SimpleSpec → Simple
  | none => s
  | some sp => { s with spec := sp }

/-- One reconcile invocation against the store: the stored record after
the invocation, and the invocation's trace.  The store applies a status
update exactly when the update call succeeded. -/
def stepStore (s : Simple) (st : ReconcileStep) : Simple × ReconcileTrace :=
  let cur := applyEdit s st.specEdit
  let t := Reconcile (Except.ok cur) st.statusUpdate
  match t.statusUpdateCalls, t.err with
  | [s'], none => (s', t)
  | _, _ => (cur, t)

/-- Run a sequence of reconcile invocations on the same record,
returning the final stored record and every invocation's trace. -/
def runReconciles : Simple → List ReconcileStep → Simple × List ReconcileTrace
  | s, [] => (s, [])
  | s, st :: rest =>
      ((runReconciles (stepStore s st).1 rest).1,
       (stepStore s st).2 :: (runReconciles (stepStore s st).1 rest).2)

/-- How many invocations of the sequence flip the stored
`status.replied` from `false` to `true`. -/
def transitionCount : Simple → List ReconcileStep → Nat
  | _, [] => 0
  | s, st :: rest =>
      (if s.status.replied = false ∧ (stepStore s st).1.status.replied = true
        then 1 else 0)
        + transitionCount (stepStore s st).1 rest

end SimpleOperator

namespace SimpleOperator

theorem applyEdit_status (s : Simple) (e : Option SimpleSpec) :
    (applyEdit s e).status = s.status := by
  cases e <;> rfl

theorem stepStore_replied_true (s : Simple) (st : ReconcileStep)
    (h : s.status.replied = true) :
    (stepStore s st).1 = applyEdit s st.specEdit ∧
    (stepStore s st).2.statusUpdateCalls = [] := by
  have hcur : (applyEdit s st.specEdit).status.replied = true := by
    rw [applyEdit_status]; exact h
  simp [stepStore, Reconcile, hcur]

theorem stepStore_replied_mono (s : Simple) (st : ReconcileStep)
    (h : s.status.replied = true) :
    (stepStore s st).1.status.replied = true := by
  rw [(stepStore_replied_true s st h).1, applyEdit_status]
  exact h

theorem transitionCount_replied (s : Simple) (steps : List ReconcileStep)
    (h : s.status.replied = true) :
    transitionCount s steps = 0 := by
  induction steps generalizing s with
  | nil => rfl
  | cons st rest ih =>
      have h2 := stepStore_replied_mono s st h
      simp [transitionCount, h, ih _ h2]

theorem runReconciles_replied_no_writes (s : Simple) (steps : List ReconcileStep)
    (h : s.status.replied = true) :
    ∀ t ∈ (runReconciles s steps).2, t.statusUpdateCalls = [] := by
  induction steps generalizing s with
  | nil =>
      intro t ht
      simp [runReconciles] at ht
  | cons st rest ih =>
      intro t ht
      rcases List.mem_cons.mp ht with h1 | h2
      · rw [h1]
        exact (stepStore_replied_true s st h).2
      · exact ih _ (stepStore_replied_mono s st h) t h2

theorem transitionCount_le_one (s : Simple) (steps : List ReconcileStep) :
    transitionCount s steps ≤ 1 := by
  induction steps generalizing s with
  | nil => simp [transitionCount]
  | cons st rest ih =>
      by_cases hrep : (stepStore s st).1.status.replied = true
      · have hrest : transitionCount (stepStore s st).1 rest = 0 :=
          transitionCount_replied _ _ hrep
        simp only [transitionCount, hrest, Nat.add_zero]
        split <;> simp
      · have hc : ¬(s.status.replied = false ∧
            (stepStore s st).1.status.replied = true) := fun hc => hrep hc.2
        simp only [transitionCount, if_neg hc, Nat.zero_add]
        exact ih _

/-- C3: across any sequence of reconcile invocations on the same record
(interleaved with arbitrary external spec edits, that is, across all
spec generations), the stored `status.replied` flips from `false` to
`true` at most once, and when an invocation observes `replied = true`
the whole remaining run issues no status update call at all. -/
theorem replied_transitions_at_most_once (s : Simple) (steps : List ReconcileStep) :
    transitionCount s steps ≤ 1 ∧
    (s.status.replied = true →
      ∀ t ∈ (runReconciles s steps).2, t.statusUpdateCalls = []) :=
  ⟨transitionCount_le_one s steps,
   fun h => runReconciles_replied_no_writes s steps h⟩

/-- Witness for C3: a concrete already-replied record run through two
steps — a plain reconcile and a reconcile after a spec edit against a
conflicting store. -/
theorem replied_transitions_at_most_once_witness :
    transitionCount
        { metadata := { nspace := "demo", name := "foo" },
          spec := { message := "Hallo Welt!" },
          status := { replied := true } }
        [{ specEdit := none, statusUpdate := fun _ => none },
         { specEdit := some { message := "edited" },
           statusUpdate := fun _ => some ApiError.conflict }] ≤ 1 ∧
    ∀ t ∈ (runReconciles
        { metadata := { nspace := "demo", name := "foo" },
          spec := { message := "Hallo Welt!" },
          status := { replied := true } }
        [{ specEdit := none, statusUpdate := fun _ => none },
         { specEdit := some { message := "edited" },
           statusUpdate := fun _ => some ApiError.conflict }]).2,
      t.statusUpdateCalls = [] :=
  ⟨(replied_transitions_at_most_once _ _).1,
   (replied_transitions_at_most_once _ _).2 rfl⟩

end SimpleOperator

namespace SimpleOperator

/-- C1: a `Reconcile` invocation on a record whose `status.replied` is
already `true` performs no status update call, returns success, and its
only metric effect is exactly one increment of
`reconcile_total{result="skipped"}`. -/
theorem reconcile_replied_is_readonly_skip (s : Simple)
    (upd : Simple → Option ApiError) (d : Nat)
    (h : s.status.replied = true) :
    (ReconcileInstrumented (Except.ok s) upd d).1.statusUpdateCalls = [] ∧
    (ReconcileInstrumented (Except.ok s) upd d).1.err = none ∧
    (ReconcileInstrumented (Except.ok s) upd d).2 = [reconcileTotal "skipped"] ∧
    (ReconcileInstrumented (Except.ok s) upd d).2.count (reconcileTotal "skipped") = 1 := by
  simp [ReconcileInstrumented, Reconcile, h]

/-- Witness for C1: evaluating the reconciler on a concrete
already-replied record. -/
theorem reconcile_replied_is_readonly_skip_witness :
    (ReconcileInstrumented
        (Except.ok { metadata := { nspace := "demo", name := "foo" },
                     spec := { message := "Hallo Welt!" },
                     status := { replied := true } })
        (fun _ => none) 5).1.statusUpdateCalls = [] ∧
    (ReconcileInstrumented
        (Except.ok { metadata := { nspace := "demo", name := "foo" },
                     spec := { message := "Hallo Welt!" },
                     status := { replied := true } })
        (fun _ => none) 5).1.err = none ∧
    (ReconcileInstrumented
        (Except.ok { metadata := { nspace := "demo", name := "foo" },
                     spec := { message := "Hallo Welt!" },
                     status := { replied := true } })
        (fun _ => none) 5).2 = [reconcileTotal "skipped"] ∧
    (ReconcileInstrumented
        (Except.ok { metadata := { nspace := "demo", name := "foo" },
                     spec := { message := "Hallo Welt!" },
                     status := { replied := true } })
        (fun _ => none) 5).2.count (reconcileTotal "skipped") = 1 :=
  reconcile_replied_is_readonly_skip _ _ 5 rfl

/-- C2: a `Reconcile` invocation on a successfully fetched record with
`status.replied = false` whose status update succeeds issues exactly one
status update call, that call sets `replied` to `true`, the invocation
returns success, and the metric effects are exactly one increment of
`reconcile_total{result="updated"}` and one `reconcile_duration`
histogram observation. -/
theorem reconcile_unreplied_updates_once (s : Simple)
    (upd : Simple → Option ApiError) (d : Nat)
    (h : s.status.replied = false)
    (hupd : upd (withReplied s) = none) :
    (ReconcileInstrumented (Except.ok s) upd d).1.statusUpdateCalls = [withReplied s] ∧
    (withReplied s).status.replied = true ∧
    (ReconcileInstrumented (Except.ok s) upd d).1.err = none ∧
    (ReconcileInstrumented (Except.ok s) upd d).2 =
      [reconcileTotal "updated", reconcileDuration d] ∧
    (ReconcileInstrumented (Except.ok s) upd d).2.count (reconcileTotal "updated") = 1 ∧
    ((ReconcileInstrumented (Except.ok s) upd d).2.filter
      (fun m => m.kind = MetricKind.histogram)).length = 1 := by
  simp only [withReplied] at hupd
  refine ⟨?_, rfl, ?_, ?_, ?_, ?_⟩ <;>
    simp [ReconcileInstrumented, Reconcile, withReplied, h, hupd,
      reconcileTotal, reconcileDuration, List.count_cons, List.filter]

/-- Witness for C2: evaluating the reconciler on a concrete not-yet
replied record whose status update succeeds. -/
theorem reconcile_unreplied_updates_once_witness :
    (ReconcileInstrumented
        (Except.ok { metadata := { nspace := "demo", name := "foo" },
                     spec := { message := "Hallo Welt!" },
                     status := { replied := false } })
        (fun _ => none) 7).1.statusUpdateCalls =
      [withReplied { metadata := { nspace := "demo", name := "foo" },
                     spec := { message := "Hallo Welt!" },
                     status := { replied := false } }] ∧
    (withReplied { metadata := { nspace := "demo", name := "foo" },
                   spec := { message := "Hallo Welt!" },
                   status := { replied := false } }).status.replied = true ∧
    (ReconcileInstrumented
        (Except.ok { metadata := { nspace := "demo", name := "foo" },
                     spec := { message := "Hallo Welt!" },
                     status := { replied := false } })
        (fun _ => none) 7).1.err = none ∧
    (ReconcileInstrumented
        (Except.ok { metadata := { nspace := "demo", name := "foo" },
                     spec := { message := "Hallo Welt!" },
                     status := { replied := false } })
        (fun _ => none) 7).2 = [reconcileTotal "updated", reconcileDuration 7] ∧
    (ReconcileInstrumented
        (Except.ok { metadata := { nspace := "demo", name := "foo" },
                     spec := { message := "Hallo Welt!" },
                     status := { replied := false } })
        (fun _ => none) 7).2.count (reconcileTotal "updated") = 1 ∧
    ((ReconcileInstrumented
        (Except.ok { metadata := { nspace := "demo", name := "foo" },
                     spec := { message := "Hallo Welt!" },
                     status := { replied := false } })
        (fun _ => none) 7).2.filter
      (fun m => m.kind = MetricKind.histogram)).length = 1 :=
  reconcile_unreplied_updates_once _ _ 7 rfl rfl

/-- C5: a `Reconcile` invocation whose fetch reports that the record is
absent returns success, issues no status update call, and its only
metric effect is one increment of `reconcile_total{result="not_found"}`.
Closed over all update environments and durations, with the full trace
and sample list pinned exactly. -/
theorem reconcile_not_found_is_noop (upd : Simple → Option ApiError) (d : Nat) :
    ReconcileInstrumented (Except.error ApiError.notFound) upd d =
      ({ getCalls := 1, statusUpdateCalls := [], err := none },
       [reconcileTotal "not_found"]) := by
  simp [ReconcileInstrumented, Reconcile, IgnoreNotFound]

/-- C6: a `Reconcile` invocation whose fetch fails with an error other
than not-found returns that very error and issues no status update call,
so the stored record is untouched on every fetch-error path. -/
theorem reconcile_fetch_error_no_mutation (e : ApiError)
    (upd : Simple → Option ApiError) (d : Nat)
    (h : e ≠ ApiError.notFound) :
    (ReconcileInstrumented (Except.error e) upd d).1 =
      { getCalls := 1, statusUpdateCalls := [], err := some e } := by
  cases e with
  | notFound => exact absurd rfl h
  | conflict => simp [ReconcileInstrumented, Reconcile, IgnoreNotFound]
  | other code => simp [ReconcileInstrumented, Reconcile, IgnoreNotFound]

/-- Witness for C6: a fetch failing with a plain server error (code 500)
is returned unchanged with no write. -/
theorem reconcile_fetch_error_no_mutation_witness :
    (ReconcileInstrumented (Except.error (ApiError.other 500))
        (fun _ => none) 3).1 =
      { getCalls := 1, statusUpdateCalls := [], err := some (ApiError.other 500) } :=
  reconcile_fetch_error_no_mutation (ApiError.other 500) (fun _ => none) 3
    (by simp)

/-- Counterexample to C4: on a version conflict the controller neither
refetches nor retries within the invocation.  On a concrete record with
`replied = false` and a store that answers every status update with a
version conflict, the invocation performs exactly one fetch and exactly
one status update attempt and immediately returns the conflict error to
its caller. -/
theorem reconcile_conflict_no_local_retry :
    (Reconcile
        (Except.ok { metadata := { nspace := "demo", name := "foo" },
                     spec := { message := "Hallo Welt!" },
                     status := { replied := false } })
        (fun _ => some ApiError.conflict)).getCalls = 1 ∧
    (Reconcile
        (Except.ok { metadata := { nspace := "demo", name := "foo" },
                     spec := { message := "Hallo Welt!" },
                     status := { replied := false } })
        (fun _ => some ApiError.conflict)).statusUpdateCalls.length = 1 ∧
    (Reconcile
        (Except.ok { metadata := { nspace := "demo", name := "foo" },
                     spec := { message := "Hallo Welt!" },
                     status := { replied := false } })
        (fun _ => some ApiError.conflict)).err = some ApiError.conflict := by
  refine ⟨rfl, rfl, rfl⟩

/-- C4 as amended: when the status update fails with a version conflict,
`Reconcile` performs no local retry at all — the invocation consists of
exactly one fetch and one status update attempt, and the conflict error
is returned directly to the caller (the external scheduler then requeues
with its own backoff). -/
theorem reconcile_conflict_returns_error (s : Simple)
    (upd : Simple → Option ApiError)
    (h : s.status.replied = false)
    (hupd : upd (withReplied s) = some ApiError.conflict) :
    Reconcile (Except.ok s) upd =
      { getCalls := 1, statusUpdateCalls := [withReplied s],
        err := some ApiError.conflict } := by
  simp only [withReplied] at hupd
  simp [Reconcile, withReplied, h, hupd]

/-- Witness for the amended C4: evaluating the reconciler on a concrete
unreplied record against a conflicting store. -/
theorem reconcile_conflict_returns_error_witness :
    Reconcile
        (Except.ok { metadata := { nspace := "demo", name := "foo" },
                     spec := { message := "Hallo Welt!" },
                     status := { replied := false } })
        (fun _ => some ApiError.conflict) =
      { getCalls := 1,
        statusUpdateCalls :=
          [withReplied { metadata := { nspace := "demo", name := "foo" },
                         spec := { message := "Hallo Welt!" },
                         status := { replied := false } }],
        err := some ApiError.conflict } :=
  reconcile_conflict_returns_error _ _ rfl rfl

end SimpleOperator

namespace SimpleOperator

/-- Embedding of the CRD validation generated from the marker
`+kubebuilder:validation:MinLength=1` on `SimpleSpec.Message`: a spec is
valid exactly when its message has length at least one. -/
def validateMessage (sp : SimpleSpec) : Bool :=
  decide (1 ≤ sp.message.length)

/-- Go JSON decoding of `SimpleStatus`: `replied` is `+optional` with
`omitempty`, so an absent field decodes to the Go zero value `false`. -/
def decodeSimpleStatus : Option Bool → SimpleStatus
  | none => { replied := false }
  | some b => { replied := b }

theorem string_length_eq_zero_iff (s : String) : s.length = 0 ↔ s = "" := by
  constructor
  · intro h
    cases s with
    | mk data =>
        simp [String.length] at h
        subst h
        rfl
  · intro h
    simp [h]

/-- C7: the schema contract of the managed resource — `spec.message`
passes validation exactly when it is non-empty, `status.replied` decodes
to `false` when absent (and to its value when present), and every status
update the controller issues goes through the status subresource: it
changes only the status (metadata and spec are preserved) and sets
`replied` to `true`. -/
theorem simple_schema_contract :
    (∀ sp : SimpleSpec, validateMessage sp = true ↔ sp.message ≠ "") ∧
    decodeSimpleStatus none = { replied := false } ∧
    (∀ b : Bool, decodeSimpleStatus (some b) = { replied := b }) ∧
    (∀ (s : Simple) (upd : Simple → Option ApiError) (s' : Simple),
      s' ∈ (Reconcile (Except.ok s) upd).statusUpdateCalls →
      s'.metadata = s.metadata ∧ s'.spec = s.spec ∧ s'.status.replied = true) := by
  refine ⟨?_, rfl, fun b => rfl, ?_⟩
  · intro sp
    unfold validateMessage
    rw [decide_eq_true_iff]
    rw [Nat.one_le_iff_ne_zero]
    exact not_congr (string_length_eq_zero_iff sp.message)
  · intro s upd s' hmem
    cases hrep : s.status.replied with
    | true =>
        simp [Reconcile, hrep] at hmem
    | false =>
        simp [Reconcile, hrep] at hmem
        rw [hmem]
        exact ⟨rfl, rfl, rfl⟩

/-- Witness for C7: the sample message is accepted by validation, and an
absent `replied` field decodes to `false`. -/
theorem simple_schema_contract_witness :
    validateMessage { message := "Hallo Welt!" } = true ∧
    decodeSimpleStatus none = { replied := false } :=
  ⟨(simple_schema_contract.1 { message := "Hallo Welt!" }).mpr (by decide),
   simple_schema_contract.2.1⟩

end SimpleOperator

namespace SimpleOperator

/-- A metric series inside a registry snapshot: series name, label
pairs, and the accumulated value. -/
structure MetricPoint where
  name : String
  labels : List (String × String)
  value : Nat
  deriving DecidableEq, Repr

/-- Modelled from the spec: the exporter (absent from `src/`, it lives
in the external metrics library) renders one label pair as a
key="value" item. -/
def renderLabelPair (kv : String × String) : String :=
  kv.1 ++ "=\"" ++ kv.2 ++ "\""

/-- Modelled from the spec: the label block of a sample line —
lexicographically sorted key="value" items inside braces, or nothing
when the series has no labels. -/
def renderLabels : List (String × String) → String
  | [] => ""
  | labels =>
      "\x7b" ++
        String.intercalate "," ((labels.map renderLabelPair).mergeSort) ++
        "\x7d"

/-- Modelled from the spec: one series rendered as its help/type
preamble lines followed by its sample line. -/
def renderPoint (p : MetricPoint) : String :=
  "# HELP " ++ p.name ++ "\n" ++
    "# TYPE " ++ p.name ++ "\n" ++
    p.name ++ renderLabels p.labels ++ " " ++ toString p.value

/-- Modelled from the spec: the full text exposition the pull endpoint
returns — every series of the snapshot rendered, sorted (each rendered
block starts with the series name, so blocks are ordered by name and
then by the sorted label items), and joined with newlines. -/
def renderSnapshot (snap : List MetricPoint) : String :=
  String.intercalate "\n" ((snap.map renderPoint).mergeSort)

/-- C8: the exporter's rendering is deterministic — any two snapshots
holding the same set of series and values (one a permutation of the
other) render to byte-identical text. -/
theorem renderSnapshot_deterministic (s1 s2 : List MetricPoint)
    (h : List.Perm s1 s2) :
    renderSnapshot s1 = renderSnapshot s2 := by
  unfold renderSnapshot
  congr 1
  exact List.eq_of_perm_of_sorted
    (((List.mergeSort_perm _ _).trans (h.map renderPoint)).trans
      (List.mergeSort_perm _ _).symm)
    (List.sorted_mergeSort' _) (List.sorted_mergeSort' _)

/-- Witness for C8: two concrete snapshots holding the same two series
in opposite order render identically. -/
theorem renderSnapshot_deterministic_witness :
    renderSnapshot
        [{ name := "reconcile_total", labels := [("result", "updated")], value := 1 },
         { name := "certwatcher_read_certificate_total", labels := [], value := 0 }] =
      renderSnapshot
        [{ name := "certwatcher_read_certificate_total", labels := [], value := 0 },
         { name := "reconcile_total", labels := [("result", "updated")], value := 1 }] :=
  renderSnapshot_deterministic _ _ (by decide)

end SimpleOperator

namespace SimpleOperator

/-- A stored metric series: name, label combination, accumulator. -/
structure Series where
  name : String
  labels : List (String × String)
  value : Nat
  deriving DecidableEq, Repr

/-- Modelled from the spec: the metric registry (absent from `src/`, it
lives in the external metrics library) — its configured maximum number
of distinct label combinations per series name, the stored series, and
the `cardinality_rejected_total` counter. -/
structure Registry where
  maxCardinality : Nat
  series : List Series
  cardinalityRejected : Nat
  deriving DecidableEq, Repr

/-- Whether a series with this exact name and label combination already
exists in the registry. -/
def hasSeries (reg : Registry) (name : String)
    (labels : List (String × String)) : Bool :=
  reg.series.any fun sr => decide (sr.name = name ∧ sr.labels = labels)

/-- The distinct label combinations currently recorded under a name. -/
def combosFor (reg : Registry) (name : String) :
    List (List (String × String)) :=
  ((reg.series.filter fun sr => decide (sr.name = name)).map
    fun sr => sr.labels).dedup

/-- Modelled from the spec: `record(name, labels, value)` — fold the
value into an existing series; otherwise create the series, unless the
number of distinct label combinations for the name has reached the
configured maximum, in which case the sample is rejected: no series is
created, `cardinality_rejected_total` is incremented, and the call still
returns normally (the rejection is never an error to the caller, which
the total return type reflects). -/
def record (reg : Registry) (name : String)
    (labels : List (String × String)) (v : Nat) : Registry :=
  if hasSeries reg name labels then
    { reg with series := reg.series.map fun sr =>
        if sr.name = name ∧ sr.labels = labels then
          { sr with value := sr.value + v }
        else sr }
  else if reg.maxCardinality ≤ (combosFor reg name).length then
    { reg with cardinalityRejected := reg.cardinalityRejected + 1 }
  else
    { reg with series := reg.series ++ [{ name := name, labels := labels, value := v }] }

/-- C9: once the distinct label combinations recorded under a name have
reached the configured maximum, a `record` call with a new combination
for that name creates no series, leaves every stored series untouched,
increments `cardinality_rejected_total` by exactly one, and returns a
registry rather than an error. -/
theorem record_rejects_beyond_cardinality (reg : Registry) (name : String)
    (labels : List (String × String)) (v : Nat)
    (hfull : reg.maxCardinality ≤ (combosFor reg name).length)
    (hnew : hasSeries reg name labels = false) :
    (record reg name labels v).series = reg.series ∧
    (record reg name labels v).cardinalityRejected = reg.cardinalityRejected + 1 ∧
    (record reg name labels v).maxCardinality = reg.maxCardinality := by
  simp [record, hnew, hfull]

/-- Witness for C9: a registry configured for at most one combination
per name, already holding one combination of series `m`, rejects a
second combination and counts it. -/
theorem record_rejects_beyond_cardinality_witness :
    (record
        { maxCardinality := 1,
          series := [{ name := "m", labels := [("a", "1")], value := 3 }],
          cardinalityRejected := 0 }
        "m" [("a", "2")] 1).series =
      [{ name := "m", labels := [("a", "1")], value := 3 }] ∧
    (record
        { maxCardinality := 1,
          series := [{ name := "m", labels := [("a", "1")], value := 3 }],
          cardinalityRejected := 0 }
        "m" [("a", "2")] 1).cardinalityRejected = 0 + 1 ∧
    (record
        { maxCardinality := 1,
          series := [{ name := "m", labels := [("a", "1")], value := 3 }],
          cardinalityRejected := 0 }
        "m" [("a", "2")] 1).maxCardinality = 1 :=
  record_rejects_beyond_cardinality _ "m" [("a", "2")] 1 (by decide) (by decide)

end SimpleOperator

namespace SimpleOperator

/-- A certificate/key pair as read from disk. -/
structure CertPair where
  certPem : String
  keyPem : String
  deriving DecidableEq, Repr

/-- A validated, atomically swappable certificate bundle with its
generation counter. -/
structure CertificateBundle where
  certPem : String
  keyPem : String
  generation : Nat
  deriving DecidableEq, Repr

/-- Modelled from the spec: the certificate watcher state (absent from
`src/`, it lives in the external runtime library) — the active bundle,
if any, and the two counters the exposition in `src/README.md` shows,
`certwatcher_read_certificate_total` and
`certwatcher_read_certificate_errors_total`. -/
structure CertWatcher where
  active : Option CertificateBundle
  readCertificateTotal : Nat
  readCertificateErrorsTotal : Nat
  deriving DecidableEq, Repr

/-- The bundle every reader is served: the current active bundle.
Reading is pure and never mutates the watcher. -/
def currentBundle (w : CertWatcher) : Option CertificateBundle :=
  w.active

/-- Modelled from the spec: reaction to a detected change of the on-disk
pair.  If the new pair validates, swap in a new bundle with an
incremented generation and count the read; if validation fails, count
the read error and keep serving the last known-good bundle. -/
def handleChange (valid : CertPair → Bool) (w : CertWatcher)
    (p : CertPair) : CertWatcher :=
  if valid p then
    { active := some
        { certPem := p.certPem, keyPem := p.keyPem,
          generation :=
            match w.active with
            | some b => b.generation + 1
            | none => 1 },
      readCertificateTotal := w.readCertificateTotal + 1,
      readCertificateErrorsTotal := w.readCertificateErrorsTotal }
  else
    { w with readCertificateErrorsTotal := w.readCertificateErrorsTotal + 1 }

/-- C10: when a detected change carries a pair that fails validation,
the watcher increments `certwatcher_read_certificate_errors_total` by
exactly one and keeps the previously active bundle as the bundle served
to every subsequent reader — the broken pair is never swapped in. -/
theorem handleChange_invalid_keeps_bundle (valid : CertPair → Bool)
    (w : CertWatcher) (p : CertPair)
    (h : valid p = false) :
    currentBundle (handleChange valid w p) = currentBundle w ∧
    (handleChange valid w p).readCertificateErrorsTotal =
      w.readCertificateErrorsTotal + 1 ∧
    (handleChange valid w p).readCertificateTotal = w.readCertificateTotal := by
  simp [handleChange, currentBundle, h]

/-- Witness for C10: a watcher serving generation 1 receives a pair the
validator rejects; the active bundle survives and the error counter goes
from 0 to 1. -/
theorem handleChange_invalid_keeps_bundle_witness :
    currentBundle
        (handleChange (fun _ => false)
          { active := some { certPem := "good-cert", keyPem := "good-key", generation := 1 },
            readCertificateTotal := 1, readCertificateErrorsTotal := 0 }
          { certPem := "broken", keyPem := "broken" }) =
      currentBundle
        { active := some { certPem := "good-cert", keyPem := "good-key", generation := 1 },
          readCertificateTotal := 1, readCertificateErrorsTotal := 0 } ∧
    (handleChange (fun _ => false)
        { active := some { certPem := "good-cert", keyPem := "good-key", generation := 1 },
          readCertificateTotal := 1, readCertificateErrorsTotal := 0 }
        { certPem := "broken", keyPem := "broken" }).readCertificateErrorsTotal = 0 + 1 ∧
    (handleChange (fun _ => false)
        { active := some { certPem := "good-cert", keyPem := "good-key", generation := 1 },
          readCertificateTotal := 1, readCertificateErrorsTotal := 0 }
        { certPem := "broken", keyPem := "broken" }).readCertificateTotal = 1 :=
  handleChange_invalid_keeps_bundle (fun _ => false) _ _ rfl

end SimpleOperator
